import Mathlib

/-
Verification of the cone-search module `navo_utils/cone.py` (class
`ConeClass`).  The Python code is shallowly embedded: the dynamically
typed inputs of `query` are modelled by an inductive type `PyObj` of the
Python values the module dispatches on; the exceptions the module can
raise before any network activity are modelled by `PyErr`; and the calls
the module makes into its external collaborators (`utils.query_loop`,
`utils.try_query`, `parse_coordinates`, the VOTable parser) are modelled
by returning the data handed to the collaborator, or by taking the
collaborator as a function argument.
-/

namespace NavoCone

/-- Sky-coordinate object (astropy `SkyCoord`): only its RA and Dec in
degrees are ever read by this module; degrees are modelled as rationals. -/
structure SkyCoord where
  ra : ℚ
  dec : ℚ
deriving DecidableEq, Repr

/-- The Python values `cone.py` dispatches on: `None`, strings, numbers,
`SkyCoord` objects, tuples, lists and string-keyed dicts. -/
inductive PyObj where
  | pyNone : PyObj
  | pyStr (s : String) : PyObj
  | pyNum (q : ℚ) : PyObj
  | pySky (c : SkyCoord) : PyObj
  | pyTuple (xs : List PyObj) : PyObj
  | pyList (xs : List PyObj) : PyObj
  | pyDict (kvs : List (String × PyObj)) : PyObj

/-- The exceptions the embedded code paths can raise. -/
inductive PyErr where
  | assertionError (msg : String) : PyErr
  | unboundLocalError (name : String) : PyErr
deriving DecidableEq, Repr

/-- Python `str()` of a value, used by `"{} {}".format(...)` on line 79
of the source. -/
def PyObj.str : PyObj → String
  | .pyNone => "None"
  | .pyStr s => s
  | .pyNum q => toString q
  | .pySky c => "<SkyCoord ra=" ++ toString c.ra ++ " dec=" ++ toString c.dec ++ ">"
  | .pyTuple xs => "(" ++ String.intercalate ", " (xs.attach.map (fun x => PyObj.str x.1)) ++ ")"
  | .pyList xs => "[" ++ String.intercalate ", " (xs.attach.map (fun x => PyObj.str x.1)) ++ "]"
  | .pyDict kvs =>
      "\x7b" ++
        String.intercalate ", "
          (kvs.attach.map
            (fun kv => match kv with
              | ⟨(k, v), _⟩ => k ++ ": " ++ PyObj.str v)) ++ "\x7d"
decreasing_by
  all_goals simp_wf
  · have := List.sizeOf_lt_of_mem x.2; omega
  · have := List.sizeOf_lt_of_mem x.2; omega
  · rename_i hmem
    have := List.sizeOf_lt_of_mem hmem
    simp at this
    omega

/-- Python `type(x) is list`. -/
def PyObj.isList : PyObj → Bool
  | .pyList _ => true
  | _ => false

/-- Configuration state fixed by `ConeClass.__init__` (lines 14-17):
`self._TIMEOUT` and `self._RETRIES`. -/
structure ConeState where
  TIMEOUT : ℕ
  RETRIES : ℕ
deriving DecidableEq, Repr

/-- `ConeClass.__init__` (lines 14-17): timeout 3 seconds, 3 retries. -/
def ConeClass.init : ConeState := { TIMEOUT := 3, RETRIES := 3 }

/-- The module-level singleton `Cone = ConeClass()` (line 120). -/
def Cone : ConeState := ConeClass.init

/-- One element of the `params` list built on line 73 of the source:
the dict `{'coords': c, 'radius': inradius[i]}`. -/
structure ParamSet where
  coords : PyObj
  radius : PyObj

/-- The data `query` hands to `utils.query_loop` on line 74: the
(normalized) service and the per-position parameter dicts.  Reaching
`utils.query_loop` is where network activity starts, so a `query`
result of `.ok` of this structure models "the query loop is entered
with these arguments" and `.error` models "an exception is raised
before any network call". -/
structure QueryLoopCall where
  service : PyObj
  params : List ParamSet

/-- Service normalization (lines 57-58): a bare URL string becomes the
one-key dict `{"access_url": service}`; anything else passes through. -/
def normService : PyObj → PyObj
  | .pyStr s => PyObj.pyDict [("access_url", PyObj.pyStr s)]
  | x => x

/-- Coordinate wrapping (lines 61-62): a single string or a single
`SkyCoord` is wrapped into a one-element list; anything else passes
through. -/
def wrapCoords (c : PyObj) : PyObj :=
  match c with
  | .pyStr _ => PyObj.pyList [c]
  | .pySky _ => PyObj.pyList [c]
  | _ => c

/-- The assertion message on line 63 of the source. -/
def coordsAssertMsg : String :=
  "ERROR: Give a coordinate object that is a single string, a list/tuple (ra,dec), a SkyCoord, or a list of any of the above."

/-- `ConeClass.query` (lines 19-74), embedded up to the point where it
calls `utils.query_loop`.  `kwargs` is the `**kwargs` parameter; it is
not read on any executed path (it appears only in the commented-out
registry block, lines 34-55).  The `else` branch of the radius
normalization (line 68) is `inradius = inradius`: the right-hand side
reads the local variable `inradius`, which is unbound at that point, so
Python raises `UnboundLocalError` there, before the length assertion on
line 69 can run; the list-comprehension on line 73 is therefore only
reached with `inradius = [radius]*len(coords)` from line 66, whose
length always equals `len(coords)` (so the index `inradius[i]` is
always in range; the `getD` default is never used). -/
def ConeClass.query (service coords radius : PyObj)
    (_kwargs : List (String × PyObj)) : Except PyErr QueryLoopCall :=
  let service := normService service
  let coords := wrapCoords coords
  match coords with
  | .pyList cs =>
      match radius with
      | .pyList _ => .error (.unboundLocalError "inradius")
      | _ =>
          let inradius := List.replicate cs.length radius
          .ok { service := service,
                params := cs.enum.map
                  (fun ic => { coords := ic.2, radius := inradius.getD ic.1 PyObj.pyNone }) }
  | _ => .error (.assertionError coordsAssertMsg)

/-- The assertion message on line 83 of the source, formatted with the
offending coordinate object. -/
def cannotParseMsg (c : PyObj) : String :=
  "ERROR: cannot parse input coordinates " ++ c.str

/-- Coordinate normalization inside `_one_cone_search` (lines 78-83):
a two-element tuple or list is formatted as `"{} {}"` and handed to the
external `parse_coordinates` (modelled by the argument `pc`); a string
is handed to `parse_coordinates` directly; a `SkyCoord` passes through;
anything else fails the `isinstance` assertion. -/
def normCoords (pc : String → SkyCoord) (coords : PyObj) : Except PyErr SkyCoord :=
  match coords with
  | .pyTuple [a, b] => .ok (pc (a.str ++ " " ++ b.str))
  | .pyList [a, b] => .ok (pc (a.str ++ " " ++ b.str))
  | .pyStr s => .ok (pc s)
  | .pySky c => .ok c
  | c => .error (.assertionError (cannotParseMsg c))

/-- The arguments `_one_cone_search` hands to `utils.try_query`
(line 87): the service, the GET parameter dict built on line 85, and
the configured timeout and retry count. -/
structure HttpGet where
  service : PyObj
  RA : ℚ
  DEC : ℚ
  SR : PyObj
  timeout : ℕ
  retries : ℕ

/-- `ConeClass._one_cone_search` (lines 77-87), embedded up to the call
to `utils.try_query`: normalizes the position, builds the parameter
dict `{'RA': coords.ra.deg, 'DEC': coords.dec.deg, 'SR': radius}` and
issues the retrying GET with the instance's timeout and retry count. -/
def ConeClass.one_cone_search_request (st : ConeState) (pc : String → SkyCoord)
    (coords radius service : PyObj) : Except PyErr HttpGet :=
  match normCoords pc coords with
  | .error e => .error e
  | .ok c =>
      .ok { service := service, RA := c.ra, DEC := c.dec, SR := radius,
            timeout := st.TIMEOUT, retries := st.RETRIES }

/-- An HTTP response as read by the decoder: its body (`content`) and
the URL it came from. -/
structure Response where
  content : String
  url : String
deriving DecidableEq, Repr

/-- The tabular result: rows, the masked flag, and the two side-channel
metadata entries (each a list so that row-stacking can merge them). -/
structure AstroTable where
  rows : List (List PyObj)
  masked : Bool
  meta_xml_raw : List String
  meta_url : List String

/-- Modelled from the spec: `utils.astropy_table_from_votable_response`
lives in the repository's `utils` module, which is not under `src/`
(only its caller, line 89 of `cone.py`, is).  Per spec section 4.4 it
attempts to parse the response body as a VOTable (the external parser
is the argument `parse`; `none` models a parse exception); on success
it returns the table with `url` and `xml_raw` recorded in metadata as
single-element lists; on any parse exception it returns an empty masked
table still carrying the same two metadata fields, and never raises. -/
def astropy_table_from_votable_response
    (parse : String → Option (List (List PyObj))) (r : Response) : AstroTable :=
  match parse r.content with
  | some rows =>
      { rows := rows, masked := false,
        meta_xml_raw := [r.content], meta_url := [r.url] }
  | none =>
      { rows := [], masked := true,
        meta_xml_raw := [r.content], meta_url := [r.url] }

/-- `ConeClass._one_cone_search` (lines 77-89) end to end: the request
is built as in `one_cone_search_request`, handed to the external
`utils.try_query` (modelled by `tq`, which yields the HTTP response),
and the response is decoded by `astropy_table_from_votable_response`. -/
def ConeClass.one_cone_search (st : ConeState) (pc : String → SkyCoord)
    (tq : HttpGet → Response) (parse : String → Option (List (List PyObj)))
    (coords radius service : PyObj) : Except PyErr AstroTable :=
  match ConeClass.one_cone_search_request st pc coords radius service with
  | .error e => .error e
  | .ok req => .ok (astropy_table_from_votable_response parse (tq req))

/-- Python `type(coords) is str or isinstance(coords, SkyCoord) or
type(coords) is list`: the coordinate shapes that reach the radius
normalization, i.e. that survive lines 61-63 of the source. -/
def recognizedCoords : PyObj → Bool
  | .pyStr _ => true
  | .pySky _ => true
  | .pyList _ => true
  | _ => false

/-- Concrete stand-in for the external `parse_coordinates`, used to
instantiate universally quantified theorems at a specific input. -/
def pcConst : String → SkyCoord := fun _ => { ra := 10, dec := 41 }

/-- Concrete stand-in for the external `utils.try_query`. -/
def tqConst : HttpGet → Response :=
  fun _ => { content := "this is not a votable", url := "http://example.com/scs" }

/-- Concrete stand-in for a VOTable parser that fails on every body. -/
def parseFail : String → Option (List (List PyObj)) := fun _ => none

/-- The request `ConeClass.one_cone_search_request` builds for the
concrete inputs used to instantiate the theorems below. -/
def reqConst : HttpGet :=
  { service := PyObj.pyStr "http://example.com/scs", RA := 10, DEC := 41,
    SR := PyObj.pyNum 1, timeout := 3, retries := 3 }

/- Theorems. -/

theorem getD_replicate_of_lt {α : Type} {n i : ℕ} (r d : α) (h : i < n) :
    (List.replicate n r).getD i d = r := by
  rw [List.getD_eq_getElem _ _ (by simpa using h), List.getElem_replicate]

/-- The comprehension on line 73, in the only state in which it is
reached (`inradius = [radius]*len(coords)`), pairs each coordinate with
the scalar radius. -/
theorem params_map_eq (cs : List PyObj) (r : PyObj) :
    cs.enum.map
        (fun ic => ParamSet.mk ic.2 ((List.replicate cs.length r).getD ic.1 PyObj.pyNone)) =
      cs.map (fun c => ParamSet.mk c r) := by
  apply List.ext_getElem
  · simp
  · intro i h1 h2
    have hi : i < cs.length := by simpa using h2
    simp only [List.getElem_map, List.getElem_enum]
    rw [getD_replicate_of_lt _ _ hi]

/-- On any `coords` list and non-list `radius`, `query` reaches the
query loop with the normalized service and one parameter set per
coordinate, each carrying the scalar radius. -/
theorem query_scalar_radius_eq (service : PyObj) (cs : List PyObj) (radius : PyObj)
    (kw : List (String × PyObj)) (h : radius.isList = false) :
    ConeClass.query service (PyObj.pyList cs) radius kw =
      .ok ⟨normService service, cs.map (fun c => ParamSet.mk c radius)⟩ := by
  have key : ConeClass.query service (PyObj.pyList cs) radius kw =
      .ok ⟨normService service,
        cs.enum.map (fun ic =>
          ParamSet.mk ic.2 ((List.replicate cs.length radius).getD ic.1 PyObj.pyNone))⟩ := by
    cases radius <;> try rfl
    all_goals simp [PyObj.isList] at h
  rw [key, params_map_eq]

/-- C1: claimed behavior is an assertion-style usage error on a radius
list whose length differs from the coordinate list's; the code instead
raises `UnboundLocalError` from line 68 (`inradius = inradius`) before
the length assertion on line 69 can run.  Evaluated here at the failing
input: two coordinates, one radius. -/
theorem query_radius_length_mismatch_unbound_local :
    ConeClass.query (PyObj.pyStr "http://example.com/scs")
        (PyObj.pyList [PyObj.pyStr "m31", PyObj.pyStr "m51"])
        (PyObj.pyList [PyObj.pyNum 1]) [] =
      .error (.unboundLocalError "inradius") := rfl

/-- C2: whenever `radius` is a list — of any length, including one
matching the number of coordinates — `query` raises
`UnboundLocalError` for `inradius` in the radius-normalization branch
(when `coords` has a shape that reaches that branch), and in every case
errors out before reaching the query loop. -/
theorem query_list_radius_unbound_local (service coords : PyObj)
    (kw : List (String × PyObj)) (rs : List PyObj) :
    (∃ e, ConeClass.query service coords (PyObj.pyList rs) kw = .error e) ∧
      (recognizedCoords coords = true →
        ConeClass.query service coords (PyObj.pyList rs) kw =
          .error (.unboundLocalError "inradius")) := by
  cases coords <;> first
    | exact ⟨⟨_, rfl⟩, fun _ => rfl⟩
    | exact ⟨⟨_, rfl⟩, fun h => Bool.noConfusion h⟩

/-- C2 witness: one coordinate and a one-element radius list (lengths
equal, so the length assertion would hold) still raises
`UnboundLocalError`. -/
theorem query_list_radius_unbound_local_witness :
    ConeClass.query (PyObj.pyStr "http://example.com/scs")
        (PyObj.pyList [PyObj.pyStr "m31"]) (PyObj.pyList [PyObj.pyNum 1]) [] =
      .error (.unboundLocalError "inradius") :=
  (query_list_radius_unbound_local (PyObj.pyStr "http://example.com/scs")
    (PyObj.pyList [PyObj.pyStr "m31"]) [] [PyObj.pyNum 1]).2 rfl

/-- C3 counterexample: a bare 2-tuple `(10, 41)` as `coords` is not
accepted as a single-position input; `query` fails the line-63
assertion (`type(coords) is list` is false for tuples). -/
theorem query_bare_pair_tuple_rejected :
    ConeClass.query (PyObj.pyStr "http://example.com/scs")
        (PyObj.pyTuple [PyObj.pyNum 10, PyObj.pyNum 41]) (PyObj.pyNum 1) [] =
      .error (.assertionError coordsAssertMsg) := rfl

/-- C3 amended: a 2-tuple/list (RA, Dec) pair is a valid
single-position input only as an element of the `coords` list,
interpreted by `_one_cone_search`; a bare 2-tuple fails the façade's
assertion, and a bare 2-element list is treated as two separate
positions. -/
theorem query_pair_only_inside_list (service radius : PyObj)
    (kw : List (String × PyObj)) (pc : String → SkyCoord) (a b : PyObj)
    (h : radius.isList = false) :
    ConeClass.query service (PyObj.pyTuple [a, b]) radius kw =
        .error (.assertionError coordsAssertMsg) ∧
      ConeClass.query service (PyObj.pyList [a, b]) radius kw =
        .ok ⟨normService service, [ParamSet.mk a radius, ParamSet.mk b radius]⟩ ∧
      normCoords pc (PyObj.pyTuple [a, b]) = .ok (pc (a.str ++ " " ++ b.str)) ∧
      normCoords pc (PyObj.pyList [a, b]) = .ok (pc (a.str ++ " " ++ b.str)) :=
  ⟨rfl, query_scalar_radius_eq service [a, b] radius kw h, rfl, rfl⟩

/-- C3 amended, witness at the pair (10, 41) and radius 1. -/
theorem query_pair_only_inside_list_witness :
    ConeClass.query (PyObj.pyStr "http://example.com/scs")
        (PyObj.pyTuple [PyObj.pyNum 10, PyObj.pyNum 41]) (PyObj.pyNum 1) [] =
        .error (.assertionError coordsAssertMsg) ∧
      ConeClass.query (PyObj.pyStr "http://example.com/scs")
        (PyObj.pyList [PyObj.pyNum 10, PyObj.pyNum 41]) (PyObj.pyNum 1) [] =
        .ok ⟨normService (PyObj.pyStr "http://example.com/scs"),
          [ParamSet.mk (PyObj.pyNum 10) (PyObj.pyNum 1),
           ParamSet.mk (PyObj.pyNum 41) (PyObj.pyNum 1)]⟩ ∧
      normCoords pcConst (PyObj.pyTuple [PyObj.pyNum 10, PyObj.pyNum 41]) =
        .ok (pcConst ((PyObj.pyNum 10).str ++ " " ++ (PyObj.pyNum 41).str)) ∧
      normCoords pcConst (PyObj.pyList [PyObj.pyNum 10, PyObj.pyNum 41]) =
        .ok (pcConst ((PyObj.pyNum 10).str ++ " " ++ (PyObj.pyNum 41).str)) :=
  query_pair_only_inside_list (PyObj.pyStr "http://example.com/scs") (PyObj.pyNum 1)
    [] pcConst (PyObj.pyNum 10) (PyObj.pyNum 41) rfl

/-- C4: with `coords` a list of N positions and a non-list `radius`,
`query` hands the query loop exactly N parameter sets, in input order,
each carrying that same scalar radius. -/
theorem query_scalar_radius_broadcast (service : PyObj) (cs : List PyObj)
    (radius : PyObj) (kw : List (String × PyObj)) (h : radius.isList = false) :
    ConeClass.query service (PyObj.pyList cs) radius kw =
        .ok ⟨normService service, cs.map (fun c => ParamSet.mk c radius)⟩ ∧
      (cs.map (fun c => ParamSet.mk c radius)).length = cs.length :=
  ⟨query_scalar_radius_eq service cs radius kw h, by simp⟩

/-- C4 witness: two coordinates and the scalar radius 1. -/
theorem query_scalar_radius_broadcast_witness :
    ConeClass.query (PyObj.pyStr "http://example.com/scs")
        (PyObj.pyList [PyObj.pyStr "m31", PyObj.pyStr "m51"]) (PyObj.pyNum 1) [] =
        .ok ⟨normService (PyObj.pyStr "http://example.com/scs"),
          [PyObj.pyStr "m31", PyObj.pyStr "m51"].map
            (fun c => ParamSet.mk c (PyObj.pyNum 1))⟩ ∧
      ([PyObj.pyStr "m31", PyObj.pyStr "m51"].map
          (fun c => ParamSet.mk c (PyObj.pyNum 1))).length =
        [PyObj.pyStr "m31", PyObj.pyStr "m51"].length :=
  query_scalar_radius_broadcast (PyObj.pyStr "http://example.com/scs")
    [PyObj.pyStr "m31", PyObj.pyStr "m51"] (PyObj.pyNum 1) [] rfl

/-- C5: whenever `_one_cone_search`, on an instance built by
`__init__`, reaches the retrying GET, the parameter mapping is exactly
RA and DEC of the normalized position (degrees) and SR the given
radius, with timeout 3 and retry count 3. -/
theorem one_cone_search_request_params (pc : String → SkyCoord)
    (coords radius service : PyObj) (req : HttpGet)
    (h : ConeClass.one_cone_search_request ConeClass.init pc coords radius service =
      .ok req) :
    ∃ c, normCoords pc coords = .ok c ∧
      req.RA = c.ra ∧ req.DEC = c.dec ∧ req.SR = radius ∧
      req.service = service ∧ req.timeout = 3 ∧ req.retries = 3 := by
  unfold ConeClass.one_cone_search_request at h
  split at h
  · exact Except.noConfusion h
  · rename_i c hn
    injection h with h2
    subst h2
    exact ⟨c, hn, rfl, rfl, rfl, rfl, rfl, rfl⟩

/-- C5 witness: a string coordinate parsed to RA 10, Dec 41. -/
theorem one_cone_search_request_params_witness :
    ∃ c, normCoords pcConst (PyObj.pyStr "m31") = .ok c ∧
      reqConst.RA = c.ra ∧ reqConst.DEC = c.dec ∧ reqConst.SR = PyObj.pyNum 1 ∧
      reqConst.service = PyObj.pyStr "http://example.com/scs" ∧
      reqConst.timeout = 3 ∧ reqConst.retries = 3 :=
  one_cone_search_request_params pcConst (PyObj.pyStr "m31") (PyObj.pyNum 1)
    (PyObj.pyStr "http://example.com/scs") reqConst rfl

/-- C6: when `coords`, after single-string and single-SkyCoord inputs
are wrapped into one-element lists, is still not a list, `query` fails
the line-63 assertion before reaching the query loop, whatever the
radius. -/
theorem query_unrecognized_coords_assert (service coords radius : PyObj)
    (kw : List (String × PyObj)) (h : recognizedCoords coords = false) :
    ConeClass.query service coords radius kw =
      .error (.assertionError coordsAssertMsg) := by
  cases coords <;> first
    | rfl
    | exact Bool.noConfusion h

/-- C6 witness: a bare number as `coords`. -/
theorem query_unrecognized_coords_assert_witness :
    ConeClass.query (PyObj.pyStr "http://example.com/scs") (PyObj.pyNum 5)
        (PyObj.pyNum 1) [] =
      .error (.assertionError coordsAssertMsg) :=
  query_unrecognized_coords_assert (PyObj.pyStr "http://example.com/scs")
    (PyObj.pyNum 5) (PyObj.pyNum 1) [] rfl

/-- C7: a bare URL string service is normalized into the one-key dict
before any further processing, so `query` on the string and on the
dict behave identically for every coordinate, radius and kwargs. -/
theorem query_url_string_service_normalized (s : String) (coords radius : PyObj)
    (kw : List (String × PyObj)) :
    ConeClass.query (PyObj.pyStr s) coords radius kw =
      ConeClass.query (PyObj.pyDict [("access_url", PyObj.pyStr s)]) coords radius kw := rfl

/-- C8: whenever the single cone search reaches the decoder and the
response body fails VOTable parsing, the call returns (never raises) an
empty masked table whose `url` and `xml_raw` metadata entries are
non-empty. -/
theorem one_cone_search_parse_failure_empty (st : ConeState)
    (pc : String → SkyCoord) (tq : HttpGet → Response)
    (parse : String → Option (List (List PyObj)))
    (coords radius service : PyObj) (req : HttpGet)
    (hreq : ConeClass.one_cone_search_request st pc coords radius service = .ok req)
    (hparse : parse (tq req).content = none) :
    ConeClass.one_cone_search st pc tq parse coords radius service =
        .ok { rows := [], masked := true,
              meta_xml_raw := [(tq req).content], meta_url := [(tq req).url] } ∧
      ([(tq req).content] ≠ ([] : List String)) ∧
      ([(tq req).url] ≠ ([] : List String)) := by
  refine ⟨?_, by simp, by simp⟩
  unfold ConeClass.one_cone_search
  rw [hreq]
  show Except.ok (astropy_table_from_votable_response parse (tq req)) = _
  unfold astropy_table_from_votable_response
  rw [hparse]

/-- C8 witness: a parser that fails on every body, applied to the
concrete request of `reqConst`. -/
theorem one_cone_search_parse_failure_empty_witness :
    ConeClass.one_cone_search ConeClass.init pcConst tqConst parseFail
        (PyObj.pyStr "m31") (PyObj.pyNum 1) (PyObj.pyStr "http://example.com/scs") =
        .ok { rows := [], masked := true,
              meta_xml_raw := [(tqConst reqConst).content],
              meta_url := [(tqConst reqConst).url] } ∧
      ([(tqConst reqConst).content] ≠ ([] : List String)) ∧
      ([(tqConst reqConst).url] ≠ ([] : List String)) :=
  one_cone_search_parse_failure_empty ConeClass.init pcConst tqConst parseFail
    (PyObj.pyStr "m31") (PyObj.pyNum 1) (PyObj.pyStr "http://example.com/scs")
    reqConst rfl rfl

/-- C9: the `**kwargs` of `query` are never read on the executed path,
so any two kwargs dicts give the same result for the same service,
coordinates and radius. -/
theorem query_kwargs_unused (service coords radius : PyObj)
    (kw1 kw2 : List (String × PyObj)) :
    ConeClass.query service coords radius kw1 =
      ConeClass.query service coords radius kw2 := rfl

/-- C10: a `coords` list of N elements yields exactly N parameter sets,
one per element; a two-element list is treated at the façade as two
separate positions; only `_one_cone_search` (via its coordinate
normalization) interprets a two-element tuple or list as a single
(RA, Dec) pair. -/
theorem query_list_elementwise (service : PyObj) (cs : List PyObj) (radius : PyObj)
    (kw : List (String × PyObj)) (pc : String → SkyCoord)
    (h : radius.isList = false) :
    (ConeClass.query service (PyObj.pyList cs) radius kw =
        .ok ⟨normService service, cs.map (fun c => ParamSet.mk c radius)⟩) ∧
      (∀ a b : PyObj, ConeClass.query service (PyObj.pyList [a, b]) radius kw =
        .ok ⟨normService service, [ParamSet.mk a radius, ParamSet.mk b radius]⟩) ∧
      (∀ a b : PyObj,
        normCoords pc (PyObj.pyTuple [a, b]) = .ok (pc (a.str ++ " " ++ b.str)) ∧
        normCoords pc (PyObj.pyList [a, b]) = .ok (pc (a.str ++ " " ++ b.str))) :=
  ⟨query_scalar_radius_eq service cs radius kw h,
   fun a b => query_scalar_radius_eq service [a, b] radius kw h,
   fun _ _ => ⟨rfl, rfl⟩⟩

/-- C10 witness: the two-element list [10, 41] yields two parameter
sets, one per element. -/
theorem query_list_elementwise_witness :
    ConeClass.query (PyObj.pyStr "http://example.com/scs")
        (PyObj.pyList [PyObj.pyNum 10, PyObj.pyNum 41]) (PyObj.pyNum 1) [] =
      .ok ⟨normService (PyObj.pyStr "http://example.com/scs"),
        [PyObj.pyNum 10, PyObj.pyNum 41].map
          (fun c => ParamSet.mk c (PyObj.pyNum 1))⟩ :=
  (query_list_elementwise (PyObj.pyStr "http://example.com/scs")
    [PyObj.pyNum 10, PyObj.pyNum 41] (PyObj.pyNum 1) [] pcConst rfl).1

end NavoCone
